import Mathlib

/-!
Shallow embedding of the order-lifecycle engine of the `pos-api` repository
(`app/services/order_service.py` together with the repository and redis
helpers it calls).  Money amounts (Python floats) are modelled as rationals;
timestamps (Python datetimes) as abstract integer instants, with the
IST/UTC conversions — bijections between representations of one instant —
modelled as the identity.  `round(x, 2)` is modelled as rounding `100*x` to
the nearest integer (tie-breaking differs from Python's round-half-even,
which is immaterial here: every theorem relates two applications of the
same rounding function).  The Mongo collections become in-memory lists held
in a `State` record, ordered newest-first, so that `find_one` with a
`created_at` descending sort becomes `List.find?`.
-/

namespace POS

/-- Python `round(x, 2)`: round to 2 decimal places. -/
def round2 (q : ℚ) : ℚ := (round (q * 100) : ℤ) / 100

/-- Order status strings from `app/models/order.py`
(`^(open|kot_printed|billed|paid|closed|cancelled)$`). -/
inductive OrderStatus where
  | open_
  | kot_printed
  | billed
  | paid
  | closed
  | cancelled
deriving DecidableEq, Repr

/-- Table status strings from `app/models/table.py`
(`^(available|occupied|reserved|out_of_order)$`). -/
inductive TableStatus where
  | available
  | occupied
  | reserved
  | out_of_order
deriving DecidableEq, Repr

/-- User roles from `app/models/user.py` (`^(admin|biller)$`). -/
inductive Role where
  | admin
  | biller
deriving DecidableEq, Repr

/-- `OrderItem` from `app/models/order.py`. -/
structure OrderItem where
  item_id : String
  name_snapshot : String
  price_snapshot : ℚ
  qty : ℤ
  notes : Option String
deriving DecidableEq, Repr

/-- `OrderTotals` from `app/models/order.py` (all fields default 0). -/
structure OrderTotals where
  sub_total : ℚ := 0
  tax_total : ℚ := 0
  discount_total : ℚ := 0
  grand_total : ℚ := 0
deriving DecidableEq, Repr

/-- `KOTPrint` from `app/models/order.py`. -/
structure KOTPrint where
  printed_at : ℤ
  items_snapshot : List OrderItem
deriving DecidableEq, Repr

/-- `BillPrint` from `app/models/order.py`. -/
structure BillPrint where
  printed_at : ℤ
  totals_snapshot : OrderTotals
deriving DecidableEq, Repr

/-- `Payment` from `app/models/order.py`. -/
structure Payment where
  amount : ℚ
  method : String
  paid_at : ℤ
  notes : Option String
deriving DecidableEq, Repr

/-- `Order` from `app/models/order.py` (API view of the stored document). -/
structure Order where
  id : String
  table_id : String
  area_id : String
  status : OrderStatus
  items : List OrderItem
  totals : OrderTotals
  kot_prints : List KOTPrint
  bill_prints : List BillPrint
  payments : List Payment
  created_by : String
  created_at : ℤ
  updated_at : ℤ
  cancelled_at : Option ℤ
  cancelled_by_user_id : Option String
  cancelled_by_role : Option Role
  cancel_reason : Option String
deriving DecidableEq, Repr

/-- `Table` from `app/models/table.py` (fields the engine reads or writes;
`capacity`/`position` are never touched by the order lifecycle and are
omitted). -/
structure Table where
  id : String
  area_id : String
  name : String
  status : TableStatus
  current_order_id : Option String
  updated_at : ℤ
deriving DecidableEq, Repr

/-- `MenuItem` from `app/models/menu.py` (fields read by the engine). -/
structure MenuItem where
  id : String
  name : String
  price : ℚ
  is_active : Bool
deriving DecidableEq, Repr

/-- `User` from `app/models/user.py` (fields read by the engine). -/
structure User where
  id : String
  username : String
  role : Role
deriving DecidableEq, Repr

/-- `Area` from `app/models/area.py` (fields read by the listing projector). -/
structure Area where
  id : String
  name : String
deriving DecidableEq, Repr

/-- `OrderItemUpdate` from `app/models/order.py`. -/
structure OrderItemUpdate where
  item_id : String
  qty_delta : ℤ
  notes : Option String
deriving DecidableEq, Repr

/-- `OrderItemPreview` from `app/models/order.py`. -/
structure OrderItemPreview where
  name : String
  qty : ℤ
  price : ℚ
deriving DecidableEq, Repr

/-- `OrderListItem` from `app/models/order.py`. -/
structure OrderListItem where
  id : String
  status : OrderStatus
  area_id : String
  table_id : String
  table_name : Option String
  area_name : Option String
  created_by : String
  created_by_username : Option String
  created_at : ℤ
  updated_at : ℤ
  grand_total : ℚ
  items_count : ℤ
  items_preview : List OrderItemPreview
deriving DecidableEq, Repr

/-- `HTTPException(status_code, detail)` as raised by the services. -/
structure HTTPError where
  code : Nat
  detail : String
deriving DecidableEq, Repr

/-- The world the engine sees: the Mongo `orders` and `tables` collections
(plus the read-only `menu_items`, `users`, `areas` collections), the redis
lock keyspace, the published events, redis availability, the clock and a
fresh-ObjectId counter.  `orders` is kept newest-first (insertion prepends),
so `List.find?` models `find_one` under a `created_at` descending sort. -/
structure State where
  orders : List Order
  tables : List Table
  menu : List MenuItem
  users : List User
  areas : List Area
  locks : List String
  events : List (String × String)
  redis_available : Bool
  now : ℤ
  next_id : Nat
deriving DecidableEq, Repr

/-! ### Tax rate and total calculation (`order_service.py` lines 39-54) -/

/-- `TAX_RATE = 0.0  # 0% by default` (`order_service.py` line 40). -/
def TAX_RATE : ℚ := 0

/-- The unrounded subtotal `sum(item.price_snapshot * item.qty for item in
items)` of `calculate_totals`. -/
def subTotalUnrounded (items : List OrderItem) : ℚ :=
  (items.map (fun item => item.price_snapshot * (item.qty : ℚ))).sum

/-- `calculate_totals` generalised over the configured tax rate (the spec
treats the rate as "a single configured constant, default 0"); the
repository function is `calculate_totals = calculateTotalsRate TAX_RATE`. -/
def calculateTotalsRate (tax_rate : ℚ) (items : List OrderItem)
    (discount_total : ℚ := 0) : OrderTotals :=
  let sub_total := subTotalUnrounded items
  let tax_total := sub_total * tax_rate
  let grand_total := sub_total + tax_total - discount_total
  { sub_total := round2 sub_total
    tax_total := round2 tax_total
    discount_total := round2 discount_total
    grand_total := round2 grand_total }

/-- `calculate_totals(items, discount_total)` from `order_service.py`. -/
def calculate_totals (items : List OrderItem) (discount_total : ℚ := 0) :
    OrderTotals :=
  calculateTotalsRate TAX_RATE items discount_total

/-! ### Redis helpers (`app/db/redis.py`) -/

/-- `acquire_lock(key, ttl)`: when redis is unavailable or errors it returns
`True` (fail-open, "graceful degradation"); otherwise `SET lock:<key> NX EX
ttl` succeeds iff the key is not already held.  The TTL governs real-time
self-expiry of a crashed holder and has no further effect in this model. -/
def acquire_lock (s : State) (key : String) (_ttl : Nat := 2) : Bool × State :=
  if s.redis_available = false then (true, s)
  else if s.locks.contains ("lock:" ++ key) then (false, s)
  else (true, { s with locks := ("lock:" ++ key) :: s.locks })

/-- `release_lock(key)`: `DEL lock:<key>`, a no-op when redis is down. -/
def release_lock (s : State) (key : String) : State :=
  if s.redis_available = false then s
  else { s with locks := s.locks.erase ("lock:" ++ key) }

/-- `publish_event(channel, payload)`: best-effort pub/sub (recorded as the
channel paired with the order id the payload describes). -/
def publish_event (s : State) (channel : String) (order_id : String) : State :=
  if s.redis_available = false then s
  else { s with events := (channel, order_id) :: s.events }

/-! ### Repositories (`order_repo.py`, `table_repo.py`, read-only lookups) -/

/-- `get_order_by_id` (`order_repo.py`). -/
def get_order_by_id (s : State) (order_id : String) : Option Order :=
  s.orders.find? (fun o => o.id == order_id)

/-- Membership test for running statuses, as in the repo query
`{"status": {"$in": ["open", "kot_printed", "billed"]}}`. -/
def isRunning (st : OrderStatus) : Bool :=
  [OrderStatus.open_, OrderStatus.kot_printed, OrderStatus.billed].contains st

/-- `get_order_by_table_id` (`order_repo.py`): most recent order for the
table among the running statuses (`orders` is newest-first). -/
def get_order_by_table_id (s : State) (table_id : String) : Option Order :=
  s.orders.find? (fun o => o.table_id == table_id && isRunning o.status)

/-- `get_table_by_id` (`table_repo.py`). -/
def get_table_by_id (s : State) (table_id : String) : Option Table :=
  s.tables.find? (fun t => t.id == table_id)

/-- `get_item_by_id` (`menu_item_repo.py`). -/
def get_item_by_id (s : State) (item_id : String) : Option MenuItem :=
  s.menu.find? (fun m => m.id == item_id)

/-- `get_user_by_id` (`user_repo.py`). -/
def get_user_by_id (s : State) (user_id : String) : Option User :=
  s.users.find? (fun u => u.id == user_id)

/-- `get_area_by_id` (`area_repo.py`). -/
def get_area_by_id (s : State) (area_id : String) : Option Area :=
  s.areas.find? (fun a => a.id == area_id)

/-- The partial-update dict passed to `order_repo.update_order`.  A `none`
field is an absent key; the repo's "Remove None values" step means an
explicit Python `None` value is indistinguishable from an absent key, which
is exactly this representation. -/
structure OrderUpdate where
  status : Option OrderStatus := none
  items : Option (List OrderItem) := none
  totals : Option OrderTotals := none
  kot_prints : Option (List KOTPrint) := none
  bill_prints : Option (List BillPrint) := none
  payments : Option (List Payment) := none
  cancelled_at : Option ℤ := none
  cancelled_by_user_id : Option String := none
  cancelled_by_role : Option Role := none
  cancel_reason : Option String := none
deriving DecidableEq, Repr

/-- The `$set` performed by `order_repo.update_order`: present keys are
written, `updated_at` is always rewritten to the current instant. -/
def applyOrderUpdate (o : Order) (u : OrderUpdate) (now : ℤ) : Order :=
  { o with
    status := u.status.getD o.status
    items := u.items.getD o.items
    totals := u.totals.getD o.totals
    kot_prints := u.kot_prints.getD o.kot_prints
    bill_prints := u.bill_prints.getD o.bill_prints
    payments := u.payments.getD o.payments
    cancelled_at := (u.cancelled_at.map some).getD o.cancelled_at
    cancelled_by_user_id := (u.cancelled_by_user_id.map some).getD o.cancelled_by_user_id
    cancelled_by_role := (u.cancelled_by_role.map some).getD o.cancelled_by_role
    cancel_reason := (u.cancel_reason.map some).getD o.cancel_reason
    updated_at := now }

/-- `update_order(order_id, update_data)` (`order_repo.py`): `$set` the given
fields on the matching document and return the re-read order, or `None`
when no document matched. -/
def update_order_state (s : State) (order_id : String) (u : OrderUpdate) : State :=
  { s with
    orders := s.orders.map
      (fun o => if o.id == order_id then applyOrderUpdate o u s.now else o) }

def update_order (s : State) (order_id : String) (u : OrderUpdate) :
    Option Order × State :=
  match get_order_by_id s order_id with
  | none => (none, s)
  | some _ =>
    let s' := update_order_state s order_id u
    (get_order_by_id s' order_id, s')

/-- The partial-update dict passed to `table_repo.update_table`, restricted
to the two fields the engine writes.  As in `OrderUpdate`, `none` is an
absent key; crucially `table_repo.update_table` strips `None` values from
the dict before the `$set`, so the services' `"current_order_id": None`
entries arrive here as `none` and leave the stored field untouched. -/
structure TableUpdate where
  status : Option TableStatus := none
  current_order_id : Option String := none
deriving DecidableEq, Repr

/-- `update_table(table_id, update_data)` (`table_repo.py`): `$set` the
present keys plus a fresh `updated_at` on the matching table. -/
def update_table (s : State) (table_id : String) (u : TableUpdate) : State :=
  { s with
    tables := s.tables.map
      (fun t => if t.id == table_id then
        { t with
          status := u.status.getD t.status
          current_order_id := (u.current_order_id.map some).getD t.current_order_id
          updated_at := s.now }
        else t) }

/-! ### Order lifecycle engine (`app/services/order_service.py`) -/

/-- The fresh ObjectId minted for a newly inserted order. -/
def freshOrderId (s : State) : String := "oid_" ++ toString s.next_id

/-- The new document built by `open_order` before insertion: status `open`,
empty items, default totals, empty print and payment histories. -/
def new_order_doc (s : State) (table_id area_id user_id : String) : Order :=
  { id := freshOrderId s
    table_id := table_id
    area_id := area_id
    status := OrderStatus.open_
    items := []
    totals := {}
    kot_prints := []
    bill_prints := []
    payments := []
    created_by := user_id
    created_at := s.now
    updated_at := s.now
    cancelled_at := none
    cancelled_by_user_id := none
    cancelled_by_role := none
    cancel_reason := none }

/-- The creation branch of `open_order`: insert the new document and mark
the table occupied and pointing at it. -/
def open_order_create (s : State) (table_id : String) (table : Table)
    (user_id : String) : Except HTTPError Order × State :=
  let new_order := new_order_doc s table_id table.area_id user_id
  let s1 : State := { s with orders := new_order :: s.orders, next_id := s.next_id + 1 }
  let s2 := update_table s1 table_id
    { status := some TableStatus.occupied, current_order_id := some new_order.id }
  (Except.ok new_order, s2)

/-- `open_order(table_id, user_id)` (`order_service.py` lines 57-98). -/
def open_order (s : State) (table_id user_id : String) :
    Except HTTPError Order × State :=
  match get_table_by_id s table_id with
  | none => (Except.error ⟨404, "Table not found"⟩, s)
  | some table =>
    match get_order_by_table_id s table_id with
    | some existing_order =>
      if isRunning existing_order.status then (Except.ok existing_order, s)
      else open_order_create s table_id table user_id
    | none => open_order_create s table_id table user_id

/-- The Python loop in `add_order_item` over `order.items`: find the first
line with the given `item_id`; add `qty_delta` to its quantity, dropping the
line when the result is `≤ 0`, and overwrite `notes` when supplied.
Returns `none` when no line matches (the append-new-line path). -/
def applyItemDelta (upd : OrderItemUpdate) :
    List OrderItem → Option (List OrderItem)
  | [] => none
  | item :: rest =>
    if item.item_id == upd.item_id then
      let new_qty := item.qty + upd.qty_delta
      if new_qty ≤ 0 then some rest
      else some ({ item with
        qty := new_qty
        notes := match upd.notes with
          | some n => some n
          | none => item.notes } :: rest)
    else (applyItemDelta upd rest).map (item :: ·)

/-- `add_order_item(order_id, item_update, user_id)` (`order_service.py`
lines 101-183). -/
def add_order_item (s : State) (order_id : String) (item_update : OrderItemUpdate)
    (_user_id : String) : Except HTTPError Order × State :=
  match get_order_by_id s order_id with
  | none => (Except.error ⟨404, "Order not found"⟩, s)
  | some order =>
    if [OrderStatus.paid, OrderStatus.closed, OrderStatus.cancelled].contains order.status then
      (Except.error ⟨400, "Cannot modify a paid, closed, or cancelled order"⟩, s)
    else
      match get_item_by_id s item_update.item_id with
      | none => (Except.error ⟨404, "Menu item not found"⟩, s)
      | some menu_item =>
        if menu_item.is_active = false then
          (Except.error ⟨400, "Menu item is not active"⟩, s)
        else
          let newItems? : Except HTTPError (List OrderItem) :=
            match applyItemDelta item_update order.items with
            | some updated => Except.ok updated
            | none =>
              if item_update.qty_delta ≤ 0 then
                Except.error ⟨400, "Cannot add item with zero or negative quantity"⟩
              else
                Except.ok (order.items ++ [{
                  item_id := item_update.item_id
                  name_snapshot := menu_item.name
                  price_snapshot := menu_item.price
                  qty := item_update.qty_delta
                  notes := item_update.notes }])
          match newItems? with
          | Except.error e => (Except.error e, s)
          | Except.ok new_items =>
            let new_totals := calculate_totals new_items order.totals.discount_total
            match update_order s order_id
              { items := some new_items, totals := some new_totals } with
            | (some updated_order, s') => (Except.ok updated_order, s')
            | (none, s') => (Except.error ⟨500, "Failed to update order"⟩, s')

/-- The `try` block of `print_kot` (everything between lock acquisition and
the `finally` release). -/
def print_kot_body (s : State) (order_id : String) :
    Except HTTPError Order × State :=
  match get_order_by_id s order_id with
  | none => (Except.error ⟨404, "Order not found"⟩, s)
  | some order =>
    if order.items = [] then
      (Except.error ⟨400, "Cannot print KOT for order with no items"⟩, s)
    else
      let kot_print : KOTPrint := { printed_at := s.now, items_snapshot := order.items }
      let new_status :=
        if order.status = OrderStatus.open_ then OrderStatus.kot_printed else order.status
      match update_order s order_id
        { kot_prints := some (order.kot_prints ++ [kot_print]),
          status := some new_status } with
      | (some updated_order, s') => (Except.ok updated_order, s')
      | (none, s') => (Except.error ⟨500, "Failed to update order"⟩, s')

/-- `print_kot(order_id)` (`order_service.py` lines 186-234): lock key
`"kot:"+order_id`, TTL 2s, `Busy` (429) when already held, release in a
`finally` on every exit path of the body. -/
def print_kot (s : State) (order_id : String) : Except HTTPError Order × State :=
  let lock_key := "kot:" ++ order_id
  match acquire_lock s lock_key 2 with
  | (false, s0) =>
    (Except.error ⟨429, "KOT print already in progress, please wait"⟩, s0)
  | (true, s0) =>
    let (res, s1) := print_kot_body s0 order_id
    (res, release_lock s1 lock_key)

/-- The `try` block of `print_bill`. -/
def print_bill_body (s : State) (order_id : String) :
    Except HTTPError Order × State :=
  match get_order_by_id s order_id with
  | none => (Except.error ⟨404, "Order not found"⟩, s)
  | some order =>
    if order.items = [] then
      (Except.error ⟨400, "Cannot print bill for order with no items"⟩, s)
    else
      let bill_print : BillPrint := { printed_at := s.now, totals_snapshot := order.totals }
      match update_order s order_id
        { bill_prints := some (order.bill_prints ++ [bill_print]),
          status := some OrderStatus.billed } with
      | (some updated_order, s') => (Except.ok updated_order, s')
      | (none, s') => (Except.error ⟨500, "Failed to update order"⟩, s')

/-- `print_bill(order_id)` (`order_service.py` lines 237-284): lock key
`"bill:"+order_id`, otherwise the same locking discipline as `print_kot`. -/
def print_bill (s : State) (order_id : String) : Except HTTPError Order × State :=
  let lock_key := "bill:" ++ order_id
  match acquire_lock s lock_key 2 with
  | (false, s0) =>
    (Except.error ⟨429, "Bill print already in progress, please wait"⟩, s0)
  | (true, s0) =>
    let (res, s1) := print_bill_body s0 order_id
    (res, release_lock s1 lock_key)

/-- The detail string of the insufficient-payment error, which reports both
the submitted and the required figure. -/
def paymentShortfallDetail (total_payment grand_total : ℚ) : String :=
  "Total payment (" ++ toString total_payment ++ ") is less than grand total ("
    ++ toString grand_total ++ ")"

/-- `process_payment(order_id, payments)` (`order_service.py` lines
287-338).  Note the table update passes `"current_order_id": None`, which
`table_repo.update_table` strips, so only the status reaches the `$set`. -/
def process_payment (s : State) (order_id : String) (payments : List Payment) :
    Except HTTPError Order × State :=
  match get_order_by_id s order_id with
  | none => (Except.error ⟨404, "Order not found"⟩, s)
  | some order =>
    if order.status ≠ OrderStatus.billed then
      (Except.error ⟨400, "Order must be billed before payment"⟩, s)
    else
      let total_payment := (payments.map (fun p => p.amount)).sum
      if total_payment < order.totals.grand_total then
        (Except.error ⟨400,
          paymentShortfallDetail total_payment order.totals.grand_total⟩, s)
      else
        match update_order s order_id
          { payments := some (order.payments ++ payments),
            status := some OrderStatus.paid } with
        | (none, s1) => (Except.error ⟨500, "Failed to update order"⟩, s1)
        | (some _, s1) =>
          let s2 := (update_order s1 order_id { status := some OrderStatus.closed }).2
          let updated_order := get_order_by_id s2 order_id
          let s3 :=
            match get_table_by_id s2 order.table_id with
            | some _ => update_table s2 order.table_id
                { status := some TableStatus.available, current_order_id := none }
            | none => s2
          match updated_order with
          | some u => (Except.ok u, s3)
          | none => (Except.error ⟨500, "Failed to update order"⟩, s3)

/-- Python's `str.strip()` as applied to the cancellation reason
(`(reason or "").strip()`): drop leading and trailing whitespace.
(Implemented structurally over the character list so concrete instances
reduce; Lean's byte-position `String.trim` computes the same string.) -/
def pyStrip (r : String) : String :=
  String.mk (((r.data.dropWhile Char.isWhitespace).reverse.dropWhile
    Char.isWhitespace).reverse)

/-- `cancel_order_service(order_id, user, reason)` (`order_service.py` lines
539-624).  The table is cleared only when it still points at this order, and
there too the `"current_order_id": None` entry is stripped by the repo. -/
def cancel_order_service (s : State) (order_id : String) (user : User)
    (reason : String) : Except HTTPError Order × State :=
  let reason := pyStrip reason
  if reason = "" then
    (Except.error ⟨400, "Cancellation reason is required"⟩, s)
  else
    match get_order_by_id s order_id with
    | none => (Except.error ⟨404, "Order not found"⟩, s)
    | some order =>
      if order.status = OrderStatus.cancelled then
        (Except.error ⟨409, "Order is already cancelled"⟩, s)
      else
        let allowed :=
          match user.role with
          | Role.admin => true
          | Role.biller => order.created_by == user.id
        if allowed = false then
          (Except.error ⟨403, "You do not have permission to cancel this order"⟩, s)
        else
          match update_order s order_id
            { status := some OrderStatus.cancelled,
              cancelled_at := some s.now,
              cancelled_by_user_id := some user.id,
              cancelled_by_role := some user.role,
              cancel_reason := some reason } with
          | (none, s1) => (Except.error ⟨500, "Failed to update order"⟩, s1)
          | (some updated_order, s1) =>
            let s2 :=
              match get_table_by_id s1 updated_order.table_id with
              | some table =>
                if table.current_order_id = some updated_order.id then
                  update_table s1 updated_order.table_id
                    { status := some TableStatus.available, current_order_id := none }
                else s1
              | none => s1
            let s3 := publish_event s2 "pos:admin" updated_order.id
            let s4 := publish_event s3 ("pos:area:" ++ updated_order.area_id) updated_order.id
            (Except.ok updated_order, s4)

/-! ### Listing projector (`order_service.py` lines 357-536) -/

/-- The `List[str] | str | None` result of `_build_status_filter`. -/
inductive StatusFilter where
  | statusList (l : List OrderStatus)
  | statusOne (st : OrderStatus)
  | noFilter
deriving DecidableEq, Repr

/-- `_build_status_filter(scope)` (`order_service.py` lines 357-366). -/
def build_status_filter (scope : String) : StatusFilter :=
  if scope = "running" then
    StatusFilter.statusList [OrderStatus.open_, OrderStatus.kot_printed, OrderStatus.billed]
  else if scope = "closed" then
    StatusFilter.statusList [OrderStatus.paid, OrderStatus.closed]
  else if scope = "cancelled" then StatusFilter.statusOne OrderStatus.cancelled
  else StatusFilter.noFilter

/-- How the status part of the Mongo query built from a `StatusFilter`
matches a document. -/
def statusMatches (f : StatusFilter) (st : OrderStatus) : Bool :=
  match f with
  | StatusFilter.statusList l => l.contains st
  | StatusFilter.statusOne s => st == s
  | StatusFilter.noFilter => true

/-- The full filter `list_orders_service` sends to `list_orders_raw`:
status by scope, a `created_at` range, and an exact `created_by` match.
(The optional `text` branch — regex table-name search and exact ObjectId
match — is outside the modelled claims and the parameter is always passed
as `None` by the only caller's route handler.) -/
def listQueryMatches (scope : String) (from_date to_date : Option ℤ)
    (biller_id : Option String) (o : Order) : Bool :=
  statusMatches (build_status_filter scope) o.status
    && (match from_date with
        | some f => decide (f ≤ o.created_at)
        | none => true)
    && (match to_date with
        | some t => decide (o.created_at ≤ t)
        | none => true)
    && (match biller_id with
        | some b => o.created_by == b
        | none => true)

/-- The per-document enrichment performed in the result loop of
`list_orders_service`: resolved names (the per-request caches return the
same value as a direct lookup), items count as the sum of line quantities,
and a preview of the first 3 item lines. -/
def toListItem (s : State) (o : Order) : OrderListItem :=
  { id := o.id
    status := o.status
    area_id := o.area_id
    table_id := o.table_id
    table_name := (get_table_by_id s o.table_id).map (fun t => t.name)
    area_name := (get_area_by_id s o.area_id).map (fun a => a.name)
    created_by := o.created_by
    created_by_username := (get_user_by_id s o.created_by).map (fun u => u.username)
    created_at := o.created_at
    updated_at := o.updated_at
    grand_total := o.totals.grand_total
    items_count := (o.items.map (fun i => i.qty)).sum
    items_preview := (o.items.take 3).map
      (fun i => { name := i.name_snapshot, qty := i.qty, price := i.price_snapshot }) }

/-- `list_orders_service(scope, page, page_size, from_date, to_date,
biller_id)` (`order_service.py` lines 369-536): filter, sort newest-first
on `created_at`, count before pagination, paginate 1-indexed, enrich. -/
def list_orders_service (s : State) (scope : String) (page page_size : Nat)
    (from_date to_date : Option ℤ := none) (biller_id : Option String := none) :
    List OrderListItem × Nat :=
  let matching := s.orders.filter (listQueryMatches scope from_date to_date biller_id)
  let total := matching.length
  let sorted := matching.mergeSort (fun a b => decide (b.created_at ≤ a.created_at))
  let pageDocs := (sorted.drop ((page - 1) * page_size)).take page_size
  (pageDocs.map (toListItem s), total)

/-! ### Concrete fixtures (small worlds used to instantiate the theorems) -/

/-- A menu line snapshot for the fixture order. -/
def demoItemTea : OrderItem :=
  { item_id := "m1", name_snapshot := "Tea", price_snapshot := 3, qty := 2,
    notes := none }

/-- A fixture order on table `t1`, parameterised by status. -/
def demoOrder (st : OrderStatus) : Order :=
  { id := "o1", table_id := "t1", area_id := "a1", status := st,
    items := [demoItemTea],
    totals := { sub_total := 6, tax_total := 0, discount_total := 0, grand_total := 6 },
    kot_prints := [], bill_prints := [], payments := [],
    created_by := "u1", created_at := 50, updated_at := 50,
    cancelled_at := none, cancelled_by_user_id := none,
    cancelled_by_role := none, cancel_reason := none }

/-- The fixture table, occupied by the fixture order. -/
def demoTableT1 : Table :=
  { id := "t1", area_id := "a1", name := "T1", status := TableStatus.occupied,
    current_order_id := some "o1", updated_at := 0 }

/-- The fixture biller (creator of the fixture order) and admin. -/
def demoBiller : User := { id := "u1", username := "asha", role := Role.biller }

/-- A second biller who did not create the fixture order. -/
def demoOtherBiller : User := { id := "u2", username := "ravi", role := Role.biller }

/-- The fixture admin. -/
def demoAdmin : User := { id := "u9", username := "root", role := Role.admin }

/-- A small world holding the fixture order (at the given status), its table,
two menu items, three users and one area. -/
def demoState (st : OrderStatus) : State :=
  { orders := [demoOrder st]
    tables := [demoTableT1]
    menu := [{ id := "m1", name := "Tea", price := 3, is_active := true },
             { id := "m2", name := "Puri", price := 40, is_active := true }]
    users := [demoBiller, demoOtherBiller, demoAdmin]
    areas := [{ id := "a1", name := "Hall" }]
    locks := []
    events := []
    redis_available := true
    now := 100
    next_id := 1 }

/-- The fixture world with the table pointing at a different order than the
one being paid (for the occupancy-clearing contrast). -/
def demoStateStalePointer : State :=
  { demoState OrderStatus.billed with
    tables := [{ demoTableT1 with current_order_id := some "oX" }] }

/-- The fixture world with the kot print lock already held. -/
def demoStateKotLocked : State :=
  { demoState OrderStatus.open_ with locks := ["lock:kot:o1"] }

/-! ### Helper lemmas -/

/-- `find?` after a point-update `map` that rewrites exactly the matching
elements, for an update that preserves the predicate. -/
theorem find?_ite_map {α : Type} (p : α → Bool) (f : α → α)
    (hf : ∀ a, p (f a) = p a) (l : List α) :
    (l.map (fun a => if p a then f a else a)).find? p = (l.find? p).map f := by
  induction l with
  | nil => rfl
  | cons a l ih =>
    by_cases h : p a = true
    · simp [List.find?_cons, h, hf a]
    · have h' : p a = false := by simpa using h
      simp [List.find?_cons, h', hf a, ih]

/-- `applyOrderUpdate` never rewrites the document id. -/
theorem applyOrderUpdate_id (o : Order) (u : OrderUpdate) (now : ℤ) :
    (applyOrderUpdate o u now).id = o.id := rfl

/-- Reduction of `update_order` when the order is present. -/
theorem update_order_of_found (s : State) (oid : String) (u : OrderUpdate)
    (o : Order) (ho : get_order_by_id s oid = some o) :
    update_order s oid u =
      (some (applyOrderUpdate o u s.now), update_order_state s oid u) := by
  unfold update_order update_order_state
  rw [ho]
  dsimp only
  have hf := find?_ite_map (fun x : Order => x.id == oid)
    (fun x => applyOrderUpdate x u s.now) (fun a => rfl) s.orders
  simp only [get_order_by_id] at ho ⊢
  rw [hf, ho]
  rfl

/-- After `update_order`, re-reading the order yields the updated document. -/
theorem get_order_by_id_update_self (s : State) (oid : String) (u : OrderUpdate)
    (o : Order) (ho : get_order_by_id s oid = some o) :
    get_order_by_id (update_order s oid u).2 oid =
      some (applyOrderUpdate o u s.now) := by
  rw [update_order_of_found s oid u o ho]
  simp only [get_order_by_id, update_order_state]
  rw [find?_ite_map (fun x : Order => x.id == oid)
    (fun x => applyOrderUpdate x u s.now) (fun a => rfl) s.orders]
  simp only [get_order_by_id] at ho
  rw [ho]
  rfl

/-- `update_order` touches only the `orders` collection. -/
theorem update_order_frame (s : State) (oid : String) (u : OrderUpdate) :
    (update_order s oid u).2.tables = s.tables ∧
    (update_order s oid u).2.menu = s.menu ∧
    (update_order s oid u).2.users = s.users ∧
    (update_order s oid u).2.areas = s.areas ∧
    (update_order s oid u).2.locks = s.locks ∧
    (update_order s oid u).2.events = s.events ∧
    (update_order s oid u).2.redis_available = s.redis_available ∧
    (update_order s oid u).2.now = s.now ∧
    (update_order s oid u).2.next_id = s.next_id := by
  unfold update_order
  cases h : get_order_by_id s oid <;> simp [update_order_state]

/-- `update_table` touches only the `tables` collection. -/
theorem update_table_frame (s : State) (tid : String) (u : TableUpdate) :
    (update_table s tid u).orders = s.orders ∧
    (update_table s tid u).menu = s.menu ∧
    (update_table s tid u).locks = s.locks ∧
    (update_table s tid u).now = s.now := by
  unfold update_table
  exact ⟨rfl, rfl, rfl, rfl⟩

/-- Re-reading a table after `update_table` on the same id. -/
theorem get_table_by_id_update_self (s : State) (tid : String) (u : TableUpdate)
    (t : Table) (ht : get_table_by_id s tid = some t) :
    get_table_by_id (update_table s tid u) tid =
      some { t with
        status := u.status.getD t.status,
        current_order_id := (u.current_order_id.map some).getD t.current_order_id,
        updated_at := s.now } := by
  unfold update_table get_table_by_id
  rw [find?_ite_map (fun y : Table => y.id == tid)
    (fun y => { y with
      status := u.status.getD y.status,
      current_order_id := (u.current_order_id.map some).getD y.current_order_id,
      updated_at := s.now }) (fun a => rfl) s.tables]
  simp only [get_table_by_id] at ht
  rw [ht]
  rfl

/-! ### C3 — total calculation -/

/-- C3: `calculate_totals(L, d)` returns `sub_total = round(Σ price·qty, 2)`,
`tax_total = round(sub_total_unrounded · tax_rate, 2)`, `discount_total =
round(d, 2)`, `grand_total = round(sub_total_unrounded + tax_total_unrounded
− d, 2)`, each field rounded to 2 decimal places independently of the
others; with `tax_rate = 0` the grand total equals `round(sub_total − d, 2)`.
The repository's `calculate_totals` is the instance at the configured
`TAX_RATE = 0`. -/
theorem calculate_totals_rounds_each_field (L : List OrderItem) (d tax_rate : ℚ)
    (_hd : 0 ≤ d) :
    (calculateTotalsRate tax_rate L d).sub_total = round2 (subTotalUnrounded L) ∧
    (calculateTotalsRate tax_rate L d).tax_total =
      round2 (subTotalUnrounded L * tax_rate) ∧
    (calculateTotalsRate tax_rate L d).discount_total = round2 d ∧
    (calculateTotalsRate tax_rate L d).grand_total =
      round2 (subTotalUnrounded L + subTotalUnrounded L * tax_rate - d) ∧
    (tax_rate = 0 →
      (calculateTotalsRate tax_rate L d).grand_total =
        round2 (subTotalUnrounded L - d)) ∧
    calculate_totals L d = calculateTotalsRate 0 L d := by
  refine ⟨rfl, rfl, rfl, rfl, ?_, ?_⟩
  · intro h
    simp [calculateTotalsRate, h]
  · simp [calculate_totals, TAX_RATE]

/-- Witness for C3 at a concrete input: one line of price 5/2 and qty 3,
discount 1/8 (so that the independent roundings are visible). -/
theorem calculate_totals_rounds_each_field_witness :
    (0 : ℚ) ≤ 1/8 ∧
    ((calculateTotalsRate 0 [⟨"i1", "Tea", 5/2, 3, none⟩] (1/8)).grand_total =
      round2 (subTotalUnrounded [⟨"i1", "Tea", 5/2, 3, none⟩] - 1/8) ∧
     (calculateTotalsRate 0 [⟨"i1", "Tea", 5/2, 3, none⟩] (1/8)).discount_total =
      round2 (1/8)) := by
  refine ⟨by norm_num, ?_, ?_⟩
  · exact (calculate_totals_rounds_each_field [⟨"i1", "Tea", 5/2, 3, none⟩]
      (1/8) 0 (by norm_num)).2.2.2.2.1 rfl
  · exact (calculate_totals_rounds_each_field [⟨"i1", "Tea", 5/2, 3, none⟩]
      (1/8) 0 (by norm_num)).2.2.1

/-! ### C4 — open_order -/

/-- An order returned by `get_order_by_table_id` is running (it comes out of
a status-filtered query). -/
theorem get_order_by_table_id_isRunning (s : State) (tid : String) (o : Order)
    (h : get_order_by_table_id s tid = some o) : isRunning o.status = true := by
  unfold get_order_by_table_id at h
  have h2 := List.find?_some h
  simp only [Bool.and_eq_true] at h2
  exact h2.2

/-- C4: `open_order` is idempotent per table.  With a running order present
(and the table existing) it returns that order and changes nothing; with no
running order it creates an order with status `open` and empty
items/totals/history and points the occupied table at it; calling it again
right away returns the same order and leaves the state fixed; a missing
table is `NotFound` (404). -/
theorem open_order_idempotent (s : State) (tid uid : String) :
    (get_table_by_id s tid = none →
      open_order s tid uid = (Except.error ⟨404, "Table not found"⟩, s)) ∧
    (∀ t ex, get_table_by_id s tid = some t → get_order_by_table_id s tid = some ex →
      open_order s tid uid = (Except.ok ex, s)) ∧
    (∀ t, get_table_by_id s tid = some t → get_order_by_table_id s tid = none →
      open_order s tid uid =
        (Except.ok (new_order_doc s tid t.area_id uid),
         update_table
           { s with orders := new_order_doc s tid t.area_id uid :: s.orders,
                    next_id := s.next_id + 1 } tid
           { status := some TableStatus.occupied,
             current_order_id := some (new_order_doc s tid t.area_id uid).id }) ∧
      (new_order_doc s tid t.area_id uid).status = OrderStatus.open_ ∧
      (new_order_doc s tid t.area_id uid).items = [] ∧
      (new_order_doc s tid t.area_id uid).totals = {} ∧
      (new_order_doc s tid t.area_id uid).kot_prints = [] ∧
      (new_order_doc s tid t.area_id uid).bill_prints = [] ∧
      (new_order_doc s tid t.area_id uid).payments = [] ∧
      get_table_by_id (open_order s tid uid).2 tid =
        some { t with status := TableStatus.occupied,
                      current_order_id := some (new_order_doc s tid t.area_id uid).id,
                      updated_at := s.now }) ∧
    (∀ o1 s1, open_order s tid uid = (Except.ok o1, s1) →
      open_order s1 tid uid = (Except.ok o1, s1)) := by
  have hnewrun : ∀ a u2, isRunning (new_order_doc s tid a u2).status = true := by
    intro a u2; rfl
  refine ⟨?_, ?_, ?_, ?_⟩
  · intro h
    simp [open_order, h]
  · intro t ex ht hex
    have hrun := get_order_by_table_id_isRunning s tid ex hex
    simp [open_order, ht, hex, hrun]
  · intro t ht hnone
    have hmain : open_order s tid uid =
        (Except.ok (new_order_doc s tid t.area_id uid),
         update_table
           { s with orders := new_order_doc s tid t.area_id uid :: s.orders,
                    next_id := s.next_id + 1 } tid
           { status := some TableStatus.occupied,
             current_order_id := some (new_order_doc s tid t.area_id uid).id }) := by
      simp [open_order, ht, hnone, open_order_create]
    refine ⟨hmain, rfl, rfl, rfl, rfl, rfl, rfl, ?_⟩
    rw [hmain]
    have ht' : get_table_by_id
        { s with orders := new_order_doc s tid t.area_id uid :: s.orders,
                 next_id := s.next_id + 1 } tid = some t := ht
    rw [get_table_by_id_update_self _ tid _ t ht']
    rfl
  · intro o1 s1 h1
    cases ht : get_table_by_id s tid with
    | none => simp [open_order, ht] at h1
    | some t =>
      cases hex : get_order_by_table_id s tid with
      | some ex =>
        have hrun := get_order_by_table_id_isRunning s tid ex hex
        rw [show open_order s tid uid = (Except.ok ex, s) by
          simp [open_order, ht, hex, hrun]] at h1
        obtain ⟨rfl, rfl⟩ : ex = o1 ∧ s = s1 := by
          simpa using h1
        simp [open_order, ht, hex, hrun]
      | none =>
        rw [show open_order s tid uid =
            (Except.ok (new_order_doc s tid t.area_id uid),
             update_table
               { s with orders := new_order_doc s tid t.area_id uid :: s.orders,
                        next_id := s.next_id + 1 } tid
               { status := some TableStatus.occupied,
                 current_order_id := some (new_order_doc s tid t.area_id uid).id }) by
          simp [open_order, ht, hex, open_order_create]] at h1
        obtain ⟨rfl, rfl⟩ : new_order_doc s tid t.area_id uid = o1 ∧
            update_table
              { s with orders := new_order_doc s tid t.area_id uid :: s.orders,
                       next_id := s.next_id + 1 } tid
              { status := some TableStatus.occupied,
                current_order_id := some (new_order_doc s tid t.area_id uid).id } = s1 := by
          simpa using h1
        have ht1 : get_table_by_id
            (update_table
              { s with orders := new_order_doc s tid t.area_id uid :: s.orders,
                       next_id := s.next_id + 1 } tid
              { status := some TableStatus.occupied,
                current_order_id := some (new_order_doc s tid t.area_id uid).id }) tid =
            some { t with status := TableStatus.occupied,
                          current_order_id := some (new_order_doc s tid t.area_id uid).id,
                          updated_at := s.now } := by
          have ht' : get_table_by_id
              { s with orders := new_order_doc s tid t.area_id uid :: s.orders,
                       next_id := s.next_id + 1 } tid = some t := ht
          rw [get_table_by_id_update_self _ tid _ t ht']
          rfl
        have hord : get_order_by_table_id
            (update_table
              { s with orders := new_order_doc s tid t.area_id uid :: s.orders,
                       next_id := s.next_id + 1 } tid
              { status := some TableStatus.occupied,
                current_order_id := some (new_order_doc s tid t.area_id uid).id }) tid =
            some (new_order_doc s tid t.area_id uid) := by
          unfold get_order_by_table_id update_table
          apply List.find?_cons_of_pos
          simp [new_order_doc, isRunning]
        simp [open_order, ht1, hord, hnewrun]

/-! ### C5 — add then remove to zero -/

/-- When no line carries the item id, the update loop finds nothing. -/
theorem applyItemDelta_of_absent (upd : OrderItemUpdate) :
    ∀ l : List OrderItem, (∀ i ∈ l, i.item_id ≠ upd.item_id) →
      applyItemDelta upd l = none := by
  intro l
  induction l with
  | nil => intro _; rfl
  | cons i rest ih =>
    intro h
    have hi : (i.item_id == upd.item_id) = false := by
      simpa using h i (List.mem_cons_self i rest)
    simp [applyItemDelta, hi, ih (fun j hj => h j (List.mem_cons_of_mem i hj))]

/-- Removing exactly the quantity of the last line (the only one carrying
the item id) drops that line and keeps the rest. -/
theorem applyItemDelta_append_drop (upd : OrderItemUpdate) (x : OrderItem)
    (hx : x.item_id = upd.item_id) (hq : x.qty + upd.qty_delta ≤ 0) :
    ∀ l : List OrderItem, (∀ i ∈ l, i.item_id ≠ upd.item_id) →
      applyItemDelta upd (l ++ [x]) = some l := by
  intro l
  induction l with
  | nil =>
    intro _
    simp [applyItemDelta, hx, hq]
  | cons i rest ih =>
    intro h
    have hi : (i.item_id == upd.item_id) = false := by
      simpa using h i (List.mem_cons_self i rest)
    simp [applyItemDelta, hi, ih (fun j hj => h j (List.mem_cons_of_mem i hj))]

/-- Reduction of `add_order_item` along the add-new-line path. -/
theorem add_order_item_append (s : State) (oid : String) (upd : OrderItemUpdate)
    (uid : String) (o : Order) (m : MenuItem)
    (ho : get_order_by_id s oid = some o)
    (hst : ([OrderStatus.paid, OrderStatus.closed, OrderStatus.cancelled].contains
      o.status) = false)
    (hm : get_item_by_id s upd.item_id = some m)
    (hact : m.is_active = true)
    (habs : applyItemDelta upd o.items = none)
    (hpos : ¬ upd.qty_delta ≤ 0) :
    add_order_item s oid upd uid =
      (Except.ok (applyOrderUpdate o
        { items := some (o.items ++ [{
            item_id := upd.item_id, name_snapshot := m.name,
            price_snapshot := m.price, qty := upd.qty_delta, notes := upd.notes }]),
          totals := some (calculate_totals
            (o.items ++ [{
              item_id := upd.item_id, name_snapshot := m.name,
              price_snapshot := m.price, qty := upd.qty_delta, notes := upd.notes }])
            o.totals.discount_total) } s.now),
       update_order_state s oid
        { items := some (o.items ++ [{
            item_id := upd.item_id, name_snapshot := m.name,
            price_snapshot := m.price, qty := upd.qty_delta, notes := upd.notes }]),
          totals := some (calculate_totals
            (o.items ++ [{
              item_id := upd.item_id, name_snapshot := m.name,
              price_snapshot := m.price, qty := upd.qty_delta, notes := upd.notes }])
            o.totals.discount_total) }) := by
  have hupd := update_order_of_found s oid
    { items := some (o.items ++ [{
        item_id := upd.item_id, name_snapshot := m.name,
        price_snapshot := m.price, qty := upd.qty_delta, notes := upd.notes }]),
      totals := some (calculate_totals
        (o.items ++ [{
          item_id := upd.item_id, name_snapshot := m.name,
          price_snapshot := m.price, qty := upd.qty_delta, notes := upd.notes }])
        o.totals.discount_total) } o ho
  simp [add_order_item, ho, hst, hm, hact, habs, hpos, hupd]
  simpa using hst

/-- Reduction of `add_order_item` along the existing-line path. -/
theorem add_order_item_existing (s : State) (oid : String) (upd : OrderItemUpdate)
    (uid : String) (o : Order) (m : MenuItem) (l' : List OrderItem)
    (ho : get_order_by_id s oid = some o)
    (hst : ([OrderStatus.paid, OrderStatus.closed, OrderStatus.cancelled].contains
      o.status) = false)
    (hm : get_item_by_id s upd.item_id = some m)
    (hact : m.is_active = true)
    (hdelta : applyItemDelta upd o.items = some l') :
    add_order_item s oid upd uid =
      (Except.ok (applyOrderUpdate o
        { items := some l',
          totals := some (calculate_totals l' o.totals.discount_total) } s.now),
       update_order_state s oid
        { items := some l',
          totals := some (calculate_totals l' o.totals.discount_total) }) := by
  have hupd := update_order_of_found s oid
    { items := some l',
      totals := some (calculate_totals l' o.totals.discount_total) } o ho
  simp [add_order_item, ho, hst, hm, hact, hdelta, hupd]
  simpa using hst

/-- C5: on a modifiable order, adding qty `n > 0` of an item `X` not
previously present and then applying `qty_delta = −n` removes `X`'s line
entirely — no zero-quantity line persists — and the recomputed totals equal
the totals of the item list without `X` (the original items, at the carried
discount). -/
theorem add_then_remove_restores_items (s : State) (oid uid X : String) (n : ℤ)
    (notes notes2 : Option String) (o : Order) (m : MenuItem)
    (ho : get_order_by_id s oid = some o)
    (hst : ([OrderStatus.paid, OrderStatus.closed, OrderStatus.cancelled].contains
      o.status) = false)
    (hm : get_item_by_id s X = some m)
    (hact : m.is_active = true)
    (habs : ∀ i ∈ o.items, i.item_id ≠ X)
    (hn : 0 < n)
    (hd : round2 o.totals.discount_total = o.totals.discount_total) :
    ∃ o1 s1 o2 s2,
      add_order_item s oid ⟨X, n, notes⟩ uid = (Except.ok o1, s1) ∧
      add_order_item s1 oid ⟨X, -n, notes2⟩ uid = (Except.ok o2, s2) ∧
      o2.items = o.items ∧
      (∀ i ∈ o2.items, i.item_id ≠ X) ∧
      o2.totals = calculate_totals o.items o.totals.discount_total := by
  have habs0 : applyItemDelta ⟨X, n, notes⟩ o.items = none :=
    applyItemDelta_of_absent _ o.items (fun i hi => habs i hi)
  have hpos : ¬ (⟨X, n, notes⟩ : OrderItemUpdate).qty_delta ≤ 0 := by
    show ¬ n ≤ 0
    omega
  have hcall1 := add_order_item_append s oid ⟨X, n, notes⟩ uid o m ho hst hm hact habs0 hpos
  -- the updated document and state after the first call
  set u1 : OrderUpdate :=
    { items := some (o.items ++ [{
        item_id := X, name_snapshot := m.name,
        price_snapshot := m.price, qty := n, notes := notes }]),
      totals := some (calculate_totals
        (o.items ++ [{
          item_id := X, name_snapshot := m.name,
          price_snapshot := m.price, qty := n, notes := notes }])
        o.totals.discount_total) } with hu1
  have ho1 : get_order_by_id (update_order_state s oid u1) oid =
      some (applyOrderUpdate o u1 s.now) := by
    have h2 := get_order_by_id_update_self s oid u1 o ho
    rw [update_order_of_found s oid u1 o ho] at h2
    exact h2
  have hdelta2 : applyItemDelta ⟨X, -n, notes2⟩ (applyOrderUpdate o u1 s.now).items =
      some o.items :=
    applyItemDelta_append_drop ⟨X, -n, notes2⟩
      { item_id := X, name_snapshot := m.name, price_snapshot := m.price,
        qty := n, notes := notes }
      rfl (by show n + -n ≤ 0; omega) o.items (fun i hi => habs i hi)
  have hcall2 := add_order_item_existing (update_order_state s oid u1) oid
    ⟨X, -n, notes2⟩ uid (applyOrderUpdate o u1 s.now) m o.items ho1 hst hm hact hdelta2
  refine ⟨_, _, _, _, hcall1, hcall2, rfl, fun i hi => habs i hi, ?_⟩
  show calculate_totals o.items (round2 o.totals.discount_total) =
    calculate_totals o.items o.totals.discount_total
  rw [hd]

/-! ### C6 / C8 — cancellation -/

/-- Reduction of `cancel_order_service` along the success path: the stored
document receives exactly the cancellation stamp. -/
theorem cancel_order_success (s : State) (oid : String) (user : User)
    (reason : String) (o : Order)
    (ho : get_order_by_id s oid = some o)
    (hr : ¬ pyStrip reason = "")
    (hst : ¬ o.status = OrderStatus.cancelled)
    (hperm : user.role = Role.admin ∨ o.created_by = user.id) :
    ∃ s', cancel_order_service s oid user reason =
      (Except.ok { o with
        status := OrderStatus.cancelled,
        cancelled_at := some s.now,
        cancelled_by_user_id := some user.id,
        cancelled_by_role := some user.role,
        cancel_reason := some (pyStrip reason),
        updated_at := s.now }, s') := by
  have hperm' : (match user.role with
      | Role.admin => true
      | Role.biller => o.created_by == user.id) = true := by
    cases hrole : user.role with
    | admin => rfl
    | biller =>
      rcases hperm with h | h
      · rw [hrole] at h
        cases h
      · simpa using h
  have hupd := update_order_of_found s oid
    { status := some OrderStatus.cancelled,
      cancelled_at := some s.now,
      cancelled_by_user_id := some user.id,
      cancelled_by_role := some user.role,
      cancel_reason := some (pyStrip reason) } o ho
  simp only [cancel_order_service, if_neg hr, ho, if_neg hst, hperm', hupd]
  exact ⟨_, rfl⟩

/-- C6: `cancel_order` fails with InvalidInput (400) on a blank reason, with
NotFound (404) on a missing order, with Conflict (409) when already
cancelled, with Forbidden (403) when the actor is neither an admin nor the
creating biller; on success it sets status `cancelled` and stamps
`cancelled_at`, `cancelled_by_user_id`, `cancelled_by_role` and
`cancel_reason`. -/
theorem cancel_order_error_taxonomy (s : State) (oid : String) (user : User)
    (reason : String) :
    (pyStrip reason = "" →
      cancel_order_service s oid user reason =
        (Except.error ⟨400, "Cancellation reason is required"⟩, s)) ∧
    (¬ pyStrip reason = "" → get_order_by_id s oid = none →
      cancel_order_service s oid user reason =
        (Except.error ⟨404, "Order not found"⟩, s)) ∧
    (∀ o, ¬ pyStrip reason = "" → get_order_by_id s oid = some o →
      o.status = OrderStatus.cancelled →
      cancel_order_service s oid user reason =
        (Except.error ⟨409, "Order is already cancelled"⟩, s)) ∧
    (∀ o, ¬ pyStrip reason = "" → get_order_by_id s oid = some o →
      ¬ o.status = OrderStatus.cancelled →
      user.role = Role.biller → ¬ o.created_by = user.id →
      cancel_order_service s oid user reason =
        (Except.error ⟨403, "You do not have permission to cancel this order"⟩, s)) ∧
    (∀ o, ¬ pyStrip reason = "" → get_order_by_id s oid = some o →
      ¬ o.status = OrderStatus.cancelled →
      (user.role = Role.admin ∨ o.created_by = user.id) →
      ∃ o' s', cancel_order_service s oid user reason = (Except.ok o', s') ∧
        o'.status = OrderStatus.cancelled ∧
        o'.cancelled_at = some s.now ∧
        o'.cancelled_by_user_id = some user.id ∧
        o'.cancelled_by_role = some user.role ∧
        o'.cancel_reason = some (pyStrip reason)) := by
  refine ⟨?_, ?_, ?_, ?_, ?_⟩
  · intro h
    simp only [cancel_order_service, if_pos h]
  · intro hr ho
    simp only [cancel_order_service, if_neg hr, ho]
  · intro o hr ho hcan
    simp only [cancel_order_service, if_neg hr, ho, if_pos hcan]
  · intro o hr ho hcan hrole hcreator
    have hcreator' : (o.created_by == user.id) = false := by
      simpa using hcreator
    simp only [cancel_order_service, if_neg hr, ho, if_neg hcan, hrole, hcreator']
    simp
  · intro o hr ho hcan hperm
    obtain ⟨s', h⟩ := cancel_order_success s oid user reason o ho hr hcan hperm
    exact ⟨_, s', h, rfl, rfl, rfl, rfl, rfl⟩

/-- Witness for C6 at the fixture world: the creating biller cancels their
own open order with reason " customer left ". -/
theorem cancel_order_error_taxonomy_witness :
    ((cancel_order_service (demoState OrderStatus.open_) "o1" demoBiller
        " customer left ").1.toOption.map (fun o =>
      (o.status, o.cancelled_at, o.cancelled_by_user_id, o.cancelled_by_role,
       o.cancel_reason))) =
      some (OrderStatus.cancelled, some 100, some "u1", some Role.biller,
        some "customer left") := by
  obtain ⟨o', s', h, h1, h2, h3, h4, h5⟩ :=
    (cancel_order_error_taxonomy (demoState OrderStatus.open_) "o1" demoBiller
        " customer left ").2.2.2.2 (demoOrder OrderStatus.open_)
      (by decide) (by decide) (by decide) (Or.inr (by decide))
  rw [h]
  dsimp only [Except.toOption, Option.map]
  rw [h1, h2, h3, h4, h5]
  decide

/-- C8: cancellation is an additive terminal stamp — the items list,
`kot_prints`, `bill_prints` and `payments` are exactly as before the call,
and the stored document differs only in the status, the four cancellation
fields and `updated_at`. -/
theorem cancel_order_preserves_history (s : State) (oid : String) (user : User)
    (reason : String) (o : Order)
    (ho : get_order_by_id s oid = some o)
    (hr : ¬ pyStrip reason = "")
    (hcan : ¬ o.status = OrderStatus.cancelled)
    (hperm : user.role = Role.admin ∨ o.created_by = user.id) :
    ∃ o' s', cancel_order_service s oid user reason = (Except.ok o', s') ∧
      o'.items = o.items ∧
      o'.kot_prints = o.kot_prints ∧
      o'.bill_prints = o.bill_prints ∧
      o'.payments = o.payments ∧
      o'.totals = o.totals ∧
      o' = { o with
        status := OrderStatus.cancelled,
        cancelled_at := some s.now,
        cancelled_by_user_id := some user.id,
        cancelled_by_role := some user.role,
        cancel_reason := some (pyStrip reason),
        updated_at := s.now } := by
  obtain ⟨s', h⟩ := cancel_order_success s oid user reason o ho hr hcan hperm
  exact ⟨_, s', h, rfl, rfl, rfl, rfl, rfl, rfl⟩

/-- Witness for C8 at the fixture world: the admin cancels the open fixture
order (which has one item line); items and histories survive verbatim. -/
theorem cancel_order_preserves_history_witness :
    ((cancel_order_service (demoState OrderStatus.open_) "o1" demoAdmin
        "mistake").1.toOption.map (fun o =>
      (o.items, o.kot_prints, o.bill_prints, o.payments, o.totals))) =
      some ((demoOrder OrderStatus.open_).items, [], [], [],
        (demoOrder OrderStatus.open_).totals) := by
  obtain ⟨o', s', h, h1, h2, h3, h4, h5, h6⟩ :=
    cancel_order_preserves_history (demoState OrderStatus.open_) "o1" demoAdmin
      "mistake" (demoOrder OrderStatus.open_) (by decide) (by decide) (by decide)
      (Or.inl (by decide))
  rw [h]
  dsimp only [Except.toOption, Option.map]
  rw [h1, h2, h3, h4, h5]
  rfl

/-! ### Payment path lemmas (used for C1, C2 and C10) -/

/-- `process_payment` on an order that is not `billed` is rejected with no
state change. -/
theorem process_payment_not_billed (s : State) (oid : String)
    (payments : List Payment) (o : Order)
    (ho : get_order_by_id s oid = some o)
    (hb : ¬ o.status = OrderStatus.billed) :
    process_payment s oid payments =
      (Except.error ⟨400, "Order must be billed before payment"⟩, s) := by
  simp only [process_payment, ho]
  rw [if_pos hb]

/-- `process_payment` with payments summing below the grand total is
rejected, reporting both figures, with no state change. -/
theorem process_payment_insufficient (s : State) (oid : String)
    (payments : List Payment) (o : Order)
    (ho : get_order_by_id s oid = some o)
    (hb : o.status = OrderStatus.billed)
    (hlt : (payments.map (fun p => p.amount)).sum < o.totals.grand_total) :
    process_payment s oid payments =
      (Except.error ⟨400, paymentShortfallDetail
        ((payments.map (fun p => p.amount)).sum) o.totals.grand_total⟩, s) := by
  simp only [process_payment, ho]
  rw [if_neg (by simp [hb]), if_pos hlt]

/-- `process_payment` success path on an existing table: payments appended,
final status `closed`, table set `available` — with `current_order_id` left
untouched (the repo strips the `None` in the update dict). -/
theorem process_payment_success (s : State) (oid : String)
    (payments : List Payment) (o : Order) (t : Table)
    (ho : get_order_by_id s oid = some o)
    (hb : o.status = OrderStatus.billed)
    (hge : ¬ (payments.map (fun p => p.amount)).sum < o.totals.grand_total)
    (ht : get_table_by_id s o.table_id = some t) :
    ∃ s', process_payment s oid payments =
      (Except.ok { o with
        payments := o.payments ++ payments,
        status := OrderStatus.closed,
        updated_at := s.now }, s') ∧
      get_table_by_id s' o.table_id =
        some { t with status := TableStatus.available, updated_at := s.now } := by
  have hupd1 := update_order_of_found s oid
    { payments := some (o.payments ++ payments),
      status := some OrderStatus.paid } o ho
  have ho1 : get_order_by_id (update_order_state s oid
      { payments := some (o.payments ++ payments),
        status := some OrderStatus.paid }) oid =
      some (applyOrderUpdate o
        { payments := some (o.payments ++ payments),
          status := some OrderStatus.paid } s.now) := by
    have h2 := get_order_by_id_update_self s oid
      { payments := some (o.payments ++ payments),
        status := some OrderStatus.paid } o ho
    rw [hupd1] at h2
    exact h2
  have hupd2 := update_order_of_found _ oid { status := some OrderStatus.closed } _ ho1
  have ho2 := get_order_by_id_update_self _ oid
    { status := some OrderStatus.closed } _ ho1
  rw [hupd2] at ho2
  have ht2 : get_table_by_id
      (update_order_state (update_order_state s oid
        { payments := some (o.payments ++ payments),
          status := some OrderStatus.paid }) oid
        { status := some OrderStatus.closed }) o.table_id = some t := ht
  simp only [process_payment, ho]
  rw [if_neg (by simp [hb]), if_neg hge]
  rw [hupd1]
  dsimp only
  rw [hupd2]
  dsimp only
  rw [ho2, ht2]
  dsimp only
  refine ⟨_, rfl, ?_⟩
  rw [get_table_by_id_update_self _ o.table_id _ t ht2]
  rfl

/-! ### Print path lemmas (used for C1 and C7) -/

/-- `print_bill` with the lock free: appends a bill print and sets status
`billed` whatever the prior status was; the lock set is restored on exit. -/
theorem print_bill_unlocked (s : State) (oid : String) (o : Order)
    (ho : get_order_by_id s oid = some o)
    (hitems : ¬ o.items = [])
    (hredis : s.redis_available = true)
    (hfree : s.locks.contains ("lock:" ++ ("bill:" ++ oid)) = false) :
    ∃ s', print_bill s oid =
      (Except.ok { o with
        bill_prints := o.bill_prints ++
          [{ printed_at := s.now, totals_snapshot := o.totals }],
        status := OrderStatus.billed,
        updated_at := s.now }, s') ∧
      s'.locks = s.locks := by
  have hacq : acquire_lock s ("bill:" ++ oid) 2 =
      (true, { s with locks := ("lock:" ++ ("bill:" ++ oid)) :: s.locks }) := by
    unfold acquire_lock
    rw [if_neg (by simp [hredis]), if_neg (by simpa using hfree)]
  have ho0 : get_order_by_id
      { s with locks := ("lock:" ++ ("bill:" ++ oid)) :: s.locks } oid = some o := ho
  have hupd := update_order_of_found
    { s with locks := ("lock:" ++ ("bill:" ++ oid)) :: s.locks } oid
    { bill_prints := some (o.bill_prints ++
        [{ printed_at := s.now, totals_snapshot := o.totals }]),
      status := some OrderStatus.billed } o ho0
  unfold print_bill
  dsimp only
  rw [hacq]
  dsimp only
  unfold print_bill_body
  rw [ho0]
  dsimp only
  rw [if_neg hitems, hupd]
  dsimp only
  refine ⟨_, rfl, ?_⟩
  simp [release_lock, update_order_state, hredis]

/-- `print_kot` with the lock free: appends a KOT print, advances `open` to
`kot_printed` and otherwise keeps the status; the lock set is restored. -/
theorem print_kot_unlocked (s : State) (oid : String) (o : Order)
    (ho : get_order_by_id s oid = some o)
    (hitems : ¬ o.items = [])
    (hredis : s.redis_available = true)
    (hfree : s.locks.contains ("lock:" ++ ("kot:" ++ oid)) = false) :
    ∃ s', print_kot s oid =
      (Except.ok { o with
        kot_prints := o.kot_prints ++
          [{ printed_at := s.now, items_snapshot := o.items }],
        status := if o.status = OrderStatus.open_ then OrderStatus.kot_printed
          else o.status,
        updated_at := s.now }, s') ∧
      s'.locks = s.locks := by
  have hacq : acquire_lock s ("kot:" ++ oid) 2 =
      (true, { s with locks := ("lock:" ++ ("kot:" ++ oid)) :: s.locks }) := by
    unfold acquire_lock
    rw [if_neg (by simp [hredis]), if_neg (by simpa using hfree)]
  have ho0 : get_order_by_id
      { s with locks := ("lock:" ++ ("kot:" ++ oid)) :: s.locks } oid = some o := ho
  have hupd := update_order_of_found
    { s with locks := ("lock:" ++ ("kot:" ++ oid)) :: s.locks } oid
    { kot_prints := some (o.kot_prints ++
        [{ printed_at := s.now, items_snapshot := o.items }]),
      status := some (if o.status = OrderStatus.open_ then OrderStatus.kot_printed
        else o.status) } o ho0
  unfold print_kot
  dsimp only
  rw [hacq]
  dsimp only
  unfold print_kot_body
  rw [ho0]
  dsimp only
  rw [if_neg hitems, hupd]
  dsimp only
  refine ⟨_, rfl, ?_⟩
  simp [release_lock, update_order_state, hredis]

/-! ### C1 — terminal orders and the mutation matrix -/

/-- C1 counterexample: on the fixture world whose order `o1` is `closed`
(with one item line), `print_bill` is not rejected — it succeeds, appends a
bill print and rewrites the status to `billed`. -/
theorem print_bill_mutates_closed_order_cex :
    ((print_bill (demoState OrderStatus.closed) "o1").1.toOption.map
      (fun o => (o.status, o.bill_prints.length))) =
      some (OrderStatus.billed, 1) := by decide

/-- C1 (amended): on an order whose status is `cancelled` or `closed`,
`add_order_item` and `process_payment` are rejected with no state change,
and `cancel_order` is rejected on a `cancelled` order; but `print_kot` and
`print_bill` carry no status guard — with non-empty items and a free lock
they succeed and append a print record, `print_bill` rewriting the status to
`billed` — and a `closed` order can still be cancelled by a permitted
actor. -/
theorem terminal_order_operation_matrix (s : State) (oid : String) (o : Order)
    (ho : get_order_by_id s oid = some o)
    (hterm : o.status = OrderStatus.closed ∨ o.status = OrderStatus.cancelled) :
    (∀ upd uid, add_order_item s oid upd uid =
      (Except.error ⟨400, "Cannot modify a paid, closed, or cancelled order"⟩, s)) ∧
    (∀ ps, process_payment s oid ps =
      (Except.error ⟨400, "Order must be billed before payment"⟩, s)) ∧
    (o.status = OrderStatus.cancelled → ∀ u r,
      cancel_order_service s oid u r =
        (Except.error (if pyStrip r = "" then
          ⟨400, "Cancellation reason is required"⟩
          else ⟨409, "Order is already cancelled"⟩), s)) ∧
    (¬ o.items = [] → s.redis_available = true →
      s.locks.contains ("lock:" ++ ("bill:" ++ oid)) = false →
      ∃ o' s', print_bill s oid = (Except.ok o', s') ∧
        o'.status = OrderStatus.billed ∧
        o'.bill_prints = o.bill_prints ++
          [{ printed_at := s.now, totals_snapshot := o.totals }]) ∧
    (¬ o.items = [] → s.redis_available = true →
      s.locks.contains ("lock:" ++ ("kot:" ++ oid)) = false →
      ∃ o' s', print_kot s oid = (Except.ok o', s') ∧
        o'.status = o.status ∧
        o'.kot_prints = o.kot_prints ++
          [{ printed_at := s.now, items_snapshot := o.items }]) ∧
    (o.status = OrderStatus.closed → ∀ u r, u.role = Role.admin →
      ¬ pyStrip r = "" →
      ∃ o' s', cancel_order_service s oid u r = (Except.ok o', s') ∧
        o'.status = OrderStatus.cancelled) := by
  have hnotopen : ¬ o.status = OrderStatus.open_ := by
    rcases hterm with h | h <;> simp [h]
  refine ⟨?_, ?_, ?_, ?_, ?_, ?_⟩
  · intro upd uid
    rcases hterm with h | h <;> simp [add_order_item, ho, h]
  · intro ps
    refine process_payment_not_billed s oid ps o ho ?_
    rcases hterm with h | h <;> simp [h]
  · intro hcan u r
    by_cases hrr : pyStrip r = ""
    · rw [if_pos hrr]
      simp only [cancel_order_service, if_pos hrr]
    · rw [if_neg hrr]
      simp only [cancel_order_service, if_neg hrr, ho, if_pos hcan]
  · intro hitems hredis hfree
    obtain ⟨s', h, _⟩ := print_bill_unlocked s oid o ho hitems hredis hfree
    exact ⟨_, s', h, rfl, rfl⟩
  · intro hitems hredis hfree
    obtain ⟨s', h, _⟩ := print_kot_unlocked s oid o ho hitems hredis hfree
    refine ⟨_, s', h, ?_, rfl⟩
    simp [if_neg hnotopen]
  · intro hclosed u r hrole hrr
    have hst : ¬ o.status = OrderStatus.cancelled := by simp [hclosed]
    obtain ⟨s', h⟩ := cancel_order_success s oid u r o ho hrr hst (Or.inl hrole)
    exact ⟨_, s', h, rfl⟩

/-- Witness for C1's amended matrix at the fixture world with a closed
order: payment is rejected with no state change. -/
theorem terminal_order_operation_matrix_witness :
    process_payment (demoState OrderStatus.closed) "o1" [] =
      (Except.error ⟨400, "Order must be billed before payment"⟩,
       demoState OrderStatus.closed) :=
  (terminal_order_operation_matrix (demoState OrderStatus.closed) "o1"
    (demoOrder OrderStatus.closed) (by decide) (Or.inl (by decide))).2.1 []

/-- Witness for C4 at the fixture world: table `t1` already carries the
running fixture order, so `open_order` returns it and changes nothing. -/
theorem open_order_idempotent_witness :
    open_order (demoState OrderStatus.open_) "t1" "u1" =
      (Except.ok (demoOrder OrderStatus.open_), demoState OrderStatus.open_) :=
  (open_order_idempotent (demoState OrderStatus.open_) "t1" "u1").2.1
    demoTableT1 (demoOrder OrderStatus.open_) (by decide) (by decide)

/-- Witness for C5 at the fixture world: add 3 × `m2` (absent from the
order) and then apply delta −3; the line vanishes and the totals are those
of the original item list. -/
theorem add_then_remove_restores_items_witness :
    ((add_order_item
        (add_order_item (demoState OrderStatus.open_) "o1" ⟨"m2", 3, none⟩ "u1").2
        "o1" ⟨"m2", -3, none⟩ "u1").1.toOption.map (fun o =>
      (o.items, o.totals))) =
      some ((demoOrder OrderStatus.open_).items,
        calculate_totals (demoOrder OrderStatus.open_).items
          (demoOrder OrderStatus.open_).totals.discount_total) := by
  obtain ⟨o1, s1, o2, s2, h1, h2, h3, h4, h5⟩ :=
    add_then_remove_restores_items (demoState OrderStatus.open_) "o1" "u1" "m2" 3
      none none (demoOrder OrderStatus.open_)
      { id := "m2", name := "Puri", price := 40, is_active := true }
      (by decide) (by decide) (by decide) (by decide) (by decide) (by decide)
      (by simp [demoOrder, round2])
  rw [h1]
  dsimp only
  rw [h2]
  dsimp only [Except.toOption, Option.map]
  rw [h3, h5]

/-! ### C2 — payment guards and the table-clearing slip -/

/-- C2: on the fixture worlds, `process_payment` on an `open` order fails
with the invalid-state 400; on the `billed` order (grand total 6) a payment
of 3 fails with the invalid-input 400 reporting both figures and changes
nothing; a payment of 6 closes the order and appends the payment, and the
table becomes `available` — but, contrary to the claim, its
`current_order_id` is NOT set to null: `table_repo.update_table` strips the
`None` value, so the pointer still reads `some "o1"`. -/
theorem process_payment_guards_and_table_cex :
    process_payment (demoState OrderStatus.open_) "o1"
      [{ amount := 6, method := "cash", paid_at := 60, notes := none }] =
      (Except.error ⟨400, "Order must be billed before payment"⟩,
       demoState OrderStatus.open_) ∧
    process_payment (demoState OrderStatus.billed) "o1"
      [{ amount := 3, method := "cash", paid_at := 60, notes := none }] =
      (Except.error ⟨400, paymentShortfallDetail 3 6⟩,
       demoState OrderStatus.billed) ∧
    ((process_payment (demoState OrderStatus.billed) "o1"
        [{ amount := 6, method := "cash", paid_at := 60, notes := none }]).1.toOption.map
      (fun o => (o.status, o.payments))) =
      some (OrderStatus.closed,
        [{ amount := 6, method := "cash", paid_at := 60, notes := none }]) ∧
    (get_table_by_id (process_payment (demoState OrderStatus.billed) "o1"
        [{ amount := 6, method := "cash", paid_at := 60, notes := none }]).2
      "t1").map (fun t => (t.status, t.current_order_id)) =
      some (TableStatus.available, some "o1") := by
  refine ⟨?_, ?_, ?_⟩
  · exact process_payment_not_billed _ _ _ (demoOrder OrderStatus.open_)
      (by decide) (by decide)
  · have hlt : (([{ amount := 3, method := "cash", paid_at := 60, notes := none }] :
        List Payment).map (fun p => p.amount)).sum <
        (demoOrder OrderStatus.billed).totals.grand_total := by
      simp [demoOrder]
      norm_num
    have h := process_payment_insufficient (demoState OrderStatus.billed) "o1"
      [{ amount := 3, method := "cash", paid_at := 60, notes := none }]
      (demoOrder OrderStatus.billed) (by decide) (by decide) hlt
    have hsum : (([{ amount := 3, method := "cash", paid_at := 60, notes := none }] :
        List Payment).map (fun p => p.amount)).sum = 3 := by simp
    have hg : (demoOrder OrderStatus.billed).totals.grand_total = (6 : ℚ) := rfl
    rw [hsum, hg] at h
    exact h
  · have hge : ¬ (([{ amount := 6, method := "cash", paid_at := 60, notes := none }] :
        List Payment).map (fun p => p.amount)).sum <
        (demoOrder OrderStatus.billed).totals.grand_total := by
      simp [demoOrder]
    obtain ⟨s', h1, h2⟩ := process_payment_success (demoState OrderStatus.billed)
      "o1" [{ amount := 6, method := "cash", paid_at := 60, notes := none }]
      (demoOrder OrderStatus.billed) demoTableT1 (by decide) (by decide) hge
      (by decide)
    have h2' : get_table_by_id s' "t1" = some { demoTableT1 with
        status := TableStatus.available, updated_at := 100 } := h2
    rw [h1]
    refine ⟨rfl, ?_⟩
    rw [h2']
    rfl

/-! ### C7 — print locking discipline -/

/-- The `try` body of `print_kot` never touches the lock keyspace or the
redis availability flag. -/
theorem print_kot_body_frame (s : State) (oid : String) :
    ((print_kot_body s oid).2).locks = s.locks ∧
    ((print_kot_body s oid).2).redis_available = s.redis_available := by
  unfold print_kot_body
  cases h : get_order_by_id s oid with
  | none => exact ⟨rfl, rfl⟩
  | some o =>
    dsimp only
    by_cases hi : o.items = []
    · rw [if_pos hi]
      exact ⟨rfl, rfl⟩
    · rw [if_neg hi, update_order_of_found s oid _ o h]
      exact ⟨rfl, rfl⟩

/-- The `try` body of `print_bill` never touches the lock keyspace or the
redis availability flag. -/
theorem print_bill_body_frame (s : State) (oid : String) :
    ((print_bill_body s oid).2).locks = s.locks ∧
    ((print_bill_body s oid).2).redis_available = s.redis_available := by
  unfold print_bill_body
  cases h : get_order_by_id s oid with
  | none => exact ⟨rfl, rfl⟩
  | some o =>
    dsimp only
    by_cases hi : o.items = []
    · rw [if_pos hi]
      exact ⟨rfl, rfl⟩
    · rw [if_neg hi, update_order_of_found s oid _ o h]
      exact ⟨rfl, rfl⟩

/-- C7: `print_kot`/`print_bill` take the short-TTL lock keyed by operation
type and order id (`lock:kot:<id>` / `lock:bill:<id>`): a held lock makes
the call fail Busy (429) with no state change rather than block or retry;
after an acquisition the lock set is restored on every exit path, success or
error; and with the lock backend unreachable `acquire_lock` returns true
(fail-open) so both prints run their bodies as if the lock were acquired. -/
theorem print_lock_discipline (s : State) (oid : String) :
    (s.redis_available = true →
      s.locks.contains ("lock:" ++ ("kot:" ++ oid)) = true →
      print_kot s oid =
        (Except.error ⟨429, "KOT print already in progress, please wait"⟩, s)) ∧
    (s.redis_available = true →
      s.locks.contains ("lock:" ++ ("bill:" ++ oid)) = true →
      print_bill s oid =
        (Except.error ⟨429, "Bill print already in progress, please wait"⟩, s)) ∧
    (s.redis_available = true →
      s.locks.contains ("lock:" ++ ("kot:" ++ oid)) = false →
      ((print_kot s oid).2).locks = s.locks) ∧
    (s.redis_available = true →
      s.locks.contains ("lock:" ++ ("bill:" ++ oid)) = false →
      ((print_bill s oid).2).locks = s.locks) ∧
    (s.redis_available = false →
      ∀ key ttl, (acquire_lock s key ttl).1 = true) ∧
    (s.redis_available = false →
      print_kot s oid = print_kot_body s oid ∧
      print_bill s oid = print_bill_body s oid) := by
  refine ⟨?_, ?_, ?_, ?_, ?_, ?_⟩
  · intro hredis hheld
    have hacq : acquire_lock s ("kot:" ++ oid) 2 = (false, s) := by
      unfold acquire_lock
      rw [if_neg (by simp [hredis]), if_pos hheld]
    unfold print_kot
    dsimp only
    rw [hacq]
  · intro hredis hheld
    have hacq : acquire_lock s ("bill:" ++ oid) 2 = (false, s) := by
      unfold acquire_lock
      rw [if_neg (by simp [hredis]), if_pos hheld]
    unfold print_bill
    dsimp only
    rw [hacq]
  · intro hredis hfree
    have hacq : acquire_lock s ("kot:" ++ oid) 2 =
        (true, { s with locks := ("lock:" ++ ("kot:" ++ oid)) :: s.locks }) := by
      unfold acquire_lock
      rw [if_neg (by simp [hredis]), if_neg (by simpa using hfree)]
    unfold print_kot
    dsimp only
    rw [hacq]
    dsimp only
    have hfr := print_kot_body_frame
      { s with locks := ("lock:" ++ ("kot:" ++ oid)) :: s.locks } oid
    unfold release_lock
    rw [if_neg (by rw [hfr.2]; simp [hredis])]
    simp [hfr.1]
  · intro hredis hfree
    have hacq : acquire_lock s ("bill:" ++ oid) 2 =
        (true, { s with locks := ("lock:" ++ ("bill:" ++ oid)) :: s.locks }) := by
      unfold acquire_lock
      rw [if_neg (by simp [hredis]), if_neg (by simpa using hfree)]
    unfold print_bill
    dsimp only
    rw [hacq]
    dsimp only
    have hfr := print_bill_body_frame
      { s with locks := ("lock:" ++ ("bill:" ++ oid)) :: s.locks } oid
    unfold release_lock
    rw [if_neg (by rw [hfr.2]; simp [hredis])]
    simp [hfr.1]
  · intro h key ttl
    unfold acquire_lock
    rw [if_pos h]
  · intro h
    constructor
    · have hacq : acquire_lock s ("kot:" ++ oid) 2 = (true, s) := by
        unfold acquire_lock
        rw [if_pos h]
      unfold print_kot
      dsimp only
      rw [hacq]
      dsimp only
      have hfr := (print_kot_body_frame s oid).2
      unfold release_lock
      rw [if_pos (by rw [hfr]; exact h)]
    · have hacq : acquire_lock s ("bill:" ++ oid) 2 = (true, s) := by
        unfold acquire_lock
        rw [if_pos h]
      unfold print_bill
      dsimp only
      rw [hacq]
      dsimp only
      have hfr := (print_bill_body_frame s oid).2
      unfold release_lock
      rw [if_pos (by rw [hfr]; exact h)]

/-- Witness for C7 at the fixture world with the kot lock already held:
`print_kot` fails Busy and changes nothing. -/
theorem print_lock_discipline_witness :
    print_kot demoStateKotLocked "o1" =
      (Except.error ⟨429, "KOT print already in progress, please wait"⟩,
       demoStateKotLocked) :=
  (print_lock_discipline demoStateKotLocked "o1").1 (by decide) (by decide)

/-! ### C10 — occupancy clearing: payment vs cancellation -/

/-- Publishing an event does not move any table. -/
theorem get_table_by_id_publish (s : State) (c i tid : String) :
    get_table_by_id (publish_event s c i) tid = get_table_by_id s tid := by
  unfold publish_event get_table_by_id
  split <;> rfl

/-- Table effect of a successful cancellation: the table is made available
exactly when it still points at the cancelled order (and even then its
`current_order_id` is left in place — the repo strips the `None`). -/
theorem cancel_order_table_effect (s : State) (oid : String) (user : User)
    (reason : String) (o : Order) (t : Table)
    (ho : get_order_by_id s oid = some o)
    (hr : ¬ pyStrip reason = "")
    (hst : ¬ o.status = OrderStatus.cancelled)
    (hperm : user.role = Role.admin ∨ o.created_by = user.id)
    (ht : get_table_by_id s o.table_id = some t) :
    ∃ o' s', cancel_order_service s oid user reason = (Except.ok o', s') ∧
      get_table_by_id s' o.table_id =
        (if t.current_order_id = some o.id then
          some { t with status := TableStatus.available, updated_at := s.now }
        else some t) := by
  have hperm' : (match user.role with
      | Role.admin => true
      | Role.biller => o.created_by == user.id) = true := by
    cases hrole : user.role with
    | admin => rfl
    | biller =>
      rcases hperm with h | h
      · rw [hrole] at h
        cases h
      · simpa using h
  have hupd := update_order_of_found s oid
    { status := some OrderStatus.cancelled,
      cancelled_at := some s.now,
      cancelled_by_user_id := some user.id,
      cancelled_by_role := some user.role,
      cancel_reason := some (pyStrip reason) } o ho
  have ht1 : get_table_by_id (update_order_state s oid
      { status := some OrderStatus.cancelled,
        cancelled_at := some s.now,
        cancelled_by_user_id := some user.id,
        cancelled_by_role := some user.role,
        cancel_reason := some (pyStrip reason) })
      (applyOrderUpdate o
        { status := some OrderStatus.cancelled,
          cancelled_at := some s.now,
          cancelled_by_user_id := some user.id,
          cancelled_by_role := some user.role,
          cancel_reason := some (pyStrip reason) } s.now).table_id = some t := ht
  simp only [cancel_order_service, if_neg hr, ho, if_neg hst, hperm', hupd]
  rw [ht1]
  dsimp only
  by_cases hptr : t.current_order_id = some o.id
  · rw [if_pos (show t.current_order_id = some (applyOrderUpdate o _ s.now).id from hptr)]
    refine ⟨_, _, rfl, ?_⟩
    rw [get_table_by_id_publish, get_table_by_id_publish, if_pos hptr]
    exact get_table_by_id_update_self _ _
      { status := some TableStatus.available, current_order_id := none } t ht1
  · rw [if_neg (show ¬ t.current_order_id = some (applyOrderUpdate o _ s.now).id from hptr)]
    refine ⟨_, _, rfl, ?_⟩
    rw [get_table_by_id_publish, get_table_by_id_publish, if_neg hptr]
    exact ht1

/-- C10 counterexample: on the fixture world whose table `t1` points at a
different order `oX`, paying the billed order `o1` still flips `t1` to
`available`, and `current_order_id` is not set to null — it still reads
`some "oX"`. -/
theorem payment_table_pointer_cex :
    ((process_payment demoStateStalePointer "o1"
        [{ amount := 6, method := "cash", paid_at := 60, notes := none }]).1.toOption.map
      (fun o => o.status)) = some OrderStatus.closed ∧
    (get_table_by_id (process_payment demoStateStalePointer "o1"
        [{ amount := 6, method := "cash", paid_at := 60, notes := none }]).2
      "t1").map (fun t => (t.status, t.current_order_id)) =
      some (TableStatus.available, some "oX") := by
  have hge : ¬ (([{ amount := 6, method := "cash", paid_at := 60, notes := none }] :
      List Payment).map (fun p => p.amount)).sum <
      (demoOrder OrderStatus.billed).totals.grand_total := by
    simp [demoOrder]
  obtain ⟨s', h1, h2⟩ := process_payment_success demoStateStalePointer "o1"
    [{ amount := 6, method := "cash", paid_at := 60, notes := none }]
    (demoOrder OrderStatus.billed)
    { demoTableT1 with current_order_id := some "oX" }
    (by decide) (by decide) hge (by decide)
  have h2' : get_table_by_id s' "t1" = some { demoTableT1 with
      current_order_id := some "oX", status := TableStatus.available,
      updated_at := 100 } := h2
  rw [h1]
  refine ⟨rfl, ?_⟩
  rw [h2']
  rfl

/-- C10 (amended): on success, `process_payment` sets the table's status to
`available` whenever the table exists — without checking that its
`current_order_id` still points at the paid order — while `cancel_order`
does so only when `current_order_id` equals the cancelled order's id; in
both cases `current_order_id` itself is left unchanged (the repo strips the
`None` value), so it is never set to null. -/
theorem payment_vs_cancel_occupancy (s : State) (oid : String) (o : Order)
    (t : Table) (user : User) (reason : String) :
    (get_order_by_id s oid = some o → o.status = OrderStatus.billed →
      ∀ payments : List Payment,
      ¬ (payments.map (fun p => p.amount)).sum < o.totals.grand_total →
      get_table_by_id s o.table_id = some t →
      ∃ s', process_payment s oid payments =
        (Except.ok { o with
          payments := o.payments ++ payments,
          status := OrderStatus.closed,
          updated_at := s.now }, s') ∧
        get_table_by_id s' o.table_id =
          some { t with status := TableStatus.available, updated_at := s.now }) ∧
    (get_order_by_id s oid = some o → ¬ pyStrip reason = "" →
      ¬ o.status = OrderStatus.cancelled →
      (user.role = Role.admin ∨ o.created_by = user.id) →
      get_table_by_id s o.table_id = some t →
      t.current_order_id = some o.id →
      ∃ o' s', cancel_order_service s oid user reason = (Except.ok o', s') ∧
        get_table_by_id s' o.table_id =
          some { t with status := TableStatus.available, updated_at := s.now }) ∧
    (get_order_by_id s oid = some o → ¬ pyStrip reason = "" →
      ¬ o.status = OrderStatus.cancelled →
      (user.role = Role.admin ∨ o.created_by = user.id) →
      get_table_by_id s o.table_id = some t →
      ¬ t.current_order_id = some o.id →
      ∃ o' s', cancel_order_service s oid user reason = (Except.ok o', s') ∧
        get_table_by_id s' o.table_id = some t) := by
  refine ⟨?_, ?_, ?_⟩
  · intro ho hb payments hge ht
    exact process_payment_success s oid payments o t ho hb hge ht
  · intro ho hr hst hperm ht hptr
    obtain ⟨o', s', h1, h2⟩ :=
      cancel_order_table_effect s oid user reason o t ho hr hst hperm ht
    rw [if_pos hptr] at h2
    exact ⟨o', s', h1, h2⟩
  · intro ho hr hst hperm ht hptr
    obtain ⟨o', s', h1, h2⟩ :=
      cancel_order_table_effect s oid user reason o t ho hr hst hperm ht
    rw [if_neg hptr] at h2
    exact ⟨o', s', h1, h2⟩

/-- Witness for C10's amended contrast at the fixture world with the stale
table pointer: cancelling `o1` leaves table `t1` completely untouched
because `t1.current_order_id` is `some "oX" ≠ some "o1"`. -/
theorem payment_vs_cancel_occupancy_witness :
    ((cancel_order_service demoStateStalePointer "o1" demoAdmin
        "wrong table").1.toOption.isSome) = true ∧
    get_table_by_id (cancel_order_service demoStateStalePointer "o1" demoAdmin
        "wrong table").2 "t1" =
      some { demoTableT1 with current_order_id := some "oX" } := by
  obtain ⟨o', s', h1, h2⟩ :=
    (payment_vs_cancel_occupancy demoStateStalePointer "o1"
        (demoOrder OrderStatus.billed)
        { demoTableT1 with current_order_id := some "oX" } demoAdmin
        "wrong table").2.2 (by decide) (by decide) (by decide)
      (Or.inl (by decide)) (by decide) (by decide)
  rw [h1]
  exact ⟨rfl, h2⟩

/-! ### C9 — listing projection -/

/-- C9: the scope→status mapping is exactly `running` → {open, kot_printed,
billed}, `closed` → {paid, closed}, `cancelled` → {cancelled}, `all` → no
filter; the listing is the filtered set sorted newest-created-first (total
counted before pagination); each entry's `items_count` is the sum of line
quantities and its preview is the first ≤ 3 item lines with name, qty and
price. -/
theorem list_orders_projection (s : State) (scope : String)
    (page page_size : Nat) (from_date to_date : Option ℤ)
    (biller_id : Option String) :
    build_status_filter "running" = StatusFilter.statusList
      [OrderStatus.open_, OrderStatus.kot_printed, OrderStatus.billed] ∧
    build_status_filter "closed" = StatusFilter.statusList
      [OrderStatus.paid, OrderStatus.closed] ∧
    build_status_filter "cancelled" = StatusFilter.statusOne OrderStatus.cancelled ∧
    build_status_filter "all" = StatusFilter.noFilter ∧
    (list_orders_service s scope page page_size from_date to_date biller_id).1 =
      ((((s.orders.filter (listQueryMatches scope from_date to_date biller_id)).mergeSort
        (fun a b => decide (b.created_at ≤ a.created_at))).drop
          ((page - 1) * page_size)).take page_size).map (toListItem s) ∧
    (list_orders_service s scope page page_size from_date to_date biller_id).2 =
      (s.orders.filter (listQueryMatches scope from_date to_date biller_id)).length ∧
    ((list_orders_service s scope page page_size from_date to_date biller_id).1).Pairwise
      (fun a b => b.created_at ≤ a.created_at) ∧
    (∀ o : Order,
      (toListItem s o).items_count = (o.items.map (fun i => i.qty)).sum ∧
      (toListItem s o).items_preview = (o.items.take 3).map
        (fun i => { name := i.name_snapshot, qty := i.qty,
                    price := i.price_snapshot }) ∧
      (toListItem s o).items_preview.length ≤ 3) := by
  have htrans : ∀ a b c : Order, decide (b.created_at ≤ a.created_at) = true →
      decide (c.created_at ≤ b.created_at) = true →
      decide (c.created_at ≤ a.created_at) = true := by
    intro a b c h1 h2
    simp only [decide_eq_true_eq] at h1 h2 ⊢
    exact le_trans h2 h1
  have htotal : ∀ a b : Order,
      (decide (b.created_at ≤ a.created_at) ||
        decide (a.created_at ≤ b.created_at)) = true := by
    intro a b
    simp only [Bool.or_eq_true, decide_eq_true_eq]
    exact le_total _ _
  refine ⟨by decide, by decide, by decide, by decide, rfl, rfl, ?_, ?_⟩
  · have hp := List.sorted_mergeSort htrans htotal
      (s.orders.filter (listQueryMatches scope from_date to_date biller_id))
    have hsl : ((((s.orders.filter
        (listQueryMatches scope from_date to_date biller_id)).mergeSort
        (fun a b => decide (b.created_at ≤ a.created_at))).drop
          ((page - 1) * page_size)).take page_size).Sublist
        ((s.orders.filter (listQueryMatches scope from_date to_date biller_id)).mergeSort
          (fun a b => decide (b.created_at ≤ a.created_at))) :=
      (List.take_sublist _ _).trans (List.drop_sublist _ _)
    have hpage := List.Pairwise.sublist hsl hp
    exact List.Pairwise.map (toListItem s)
      (fun a b h => of_decide_eq_true h) hpage
  · intro o
    refine ⟨rfl, rfl, ?_⟩
    show ((o.items.take 3).map _).length ≤ 3
    rw [List.length_map, List.length_take]
    exact min_le_left _ _

end POS
